import Mathlib

/-!
# Webhook delivery subsystem — formal model

A shallow embedding of the webhook delivery core of the repository
(`src/services/WebhookService.js` and the webhook routes in
`src/routes/webhooks.js`), together with theorems settling the frozen
claims about it.

Modelling conventions:
* JavaScript numbers that stay integral are modelled as `Nat` (timestamps
  in milliseconds, attempt counters, 32-bit words with explicit
  `% 2 ^ 32` reductions).
* `Buffer`s are `List Nat` with every entry `< 256`.
* Node's `crypto.createHmac('sha256', ·)` is modelled by a concrete
  implementation of SHA-256 / HMAC-SHA256 (FIPS 180-4, RFC 2104), checked
  below against published test vectors.
* A JavaScript function that can throw is modelled with an explicit
  result type `JsResult` (`ok` or `thrown`).
* Database rows (`prisma.webhookEvent`) are modelled as an `Event`
  structure; each `prisma.webhookEvent.update` call is one written row
  state, and the sequence of writes performed by a service call is made
  explicit where a claim is about the write sequence.
* The `setTimeout` retry that `processWebhook` schedules is part of its
  result: the pair of the computed delay and the object the callback
  captured. The code never refreshes that object from the database, so the
  captured object is stale on every scheduled retry; `timerTrace` and
  `timerDelays` run this chain, which is the schedule the program actually
  executes after a failure.
-/

set_option maxRecDepth 1000000

/-! ## SHA-256 (FIPS 180-4) over `List Nat` bytes -/

/-- Reduce to a 32-bit word. -/
def w32 (x : Nat) : Nat := x % 4294967296

/-- 32-bit rotate right. -/
def rotr (n x : Nat) : Nat := w32 ((x >>> n) ||| (x <<< (32 - n)))

/-- Logical shift right. -/
def shr (n x : Nat) : Nat := x >>> n

/-- 32-bit bitwise complement. -/
def bnot32 (x : Nat) : Nat := 4294967295 ^^^ x

def bsig0 (x : Nat) : Nat := rotr 2 x ^^^ rotr 13 x ^^^ rotr 22 x
def bsig1 (x : Nat) : Nat := rotr 6 x ^^^ rotr 11 x ^^^ rotr 25 x
def ssig0 (x : Nat) : Nat := rotr 7 x ^^^ rotr 18 x ^^^ shr 3 x
def ssig1 (x : Nat) : Nat := rotr 17 x ^^^ rotr 19 x ^^^ shr 10 x

def chF (e f g : Nat) : Nat := (e &&& f) ^^^ (bnot32 e &&& g)
def majF (a b c : Nat) : Nat := (a &&& b) ^^^ (a &&& c) ^^^ (b &&& c)

/-- The 64 SHA-256 round constants. -/
def sha256K : List Nat :=
  [1116352408, 1899447441, 3049323471, 3921009573, 961987163, 1508970993,
   2453635748, 2870763221, 3624381080, 310598401, 607225278, 1426881987,
   1925078388, 2162078206, 2614888103, 3248222580, 3835390401, 4022224774,
   264347078, 604807628, 770255983, 1249150122, 1555081692, 1996064986,
   2554220882, 2821834349, 2952996808, 3210313671, 3336571891, 3584528711,
   113926993, 338241895, 666307205, 773529912, 1294757372, 1396182291,
   1695183700, 1986661051, 2177026350, 2456956037, 2730485921, 2820302411,
   3259730800, 3345764771, 3516065817, 3600352804, 4094571909, 275423344,
   430227734, 506948616, 659060556, 883997877, 958139571, 1322822218,
   1537002063, 1747873779, 1955562222, 2024104815, 2227730452, 2361852424,
   2428436474, 2756734187, 3204031479, 3329325298]

/-- Working state: eight 32-bit hash words. -/
structure Hash8 where
  h0 : Nat
  h1 : Nat
  h2 : Nat
  h3 : Nat
  h4 : Nat
  h5 : Nat
  h6 : Nat
  h7 : Nat

def sha256Init : Hash8 :=
  ⟨1779033703, 3144134277, 1013904242, 2773480762, 1359893119, 2600822924, 528734635, 1541459225⟩

/-- Message schedule: extend the 16 block words by `fuel` further words. -/
def extendW (ws : List Nat) (fuel : Nat) : List Nat :=
  match fuel with
  | 0 => ws
  | fuel + 1 =>
    let n := ws.length
    let w := w32 (ssig1 (ws.getD (n - 2) 0) + ws.getD (n - 7) 0 +
                  ssig0 (ws.getD (n - 15) 0) + ws.getD (n - 16) 0)
    extendW (ws ++ [w]) fuel

/-- One compression round: `kw` is the pair of round constant and schedule word. -/
def roundStep (st : Hash8) (kw : Nat × Nat) : Hash8 :=
  let t1 := w32 (st.h7 + bsig1 st.h4 + chF st.h4 st.h5 st.h6 + kw.1 + kw.2)
  let t2 := w32 (bsig0 st.h0 + majF st.h0 st.h1 st.h2)
  ⟨w32 (t1 + t2), st.h0, st.h1, st.h2, w32 (st.h3 + t1), st.h4, st.h5, st.h6⟩

/-- Compress a single 16-word block into the running hash. -/
def compress (h : Hash8) (block : List Nat) : Hash8 :=
  let ws := extendW block 48
  let st := (sha256K.zip ws).foldl roundStep h
  ⟨w32 (h.h0 + st.h0), w32 (h.h1 + st.h1), w32 (h.h2 + st.h2), w32 (h.h3 + st.h3),
   w32 (h.h4 + st.h4), w32 (h.h5 + st.h5), w32 (h.h6 + st.h6), w32 (h.h7 + st.h7)⟩

/-- Bytes (big-endian groups of 4) to 32-bit words. -/
def bytesToWords : List Nat → List Nat
  | b0 :: b1 :: b2 :: b3 :: rest => (b0 * 16777216 + b1 * 65536 + b2 * 256 + b3) :: bytesToWords rest
  | _ => []

/-- Split a byte list into 64-byte chunks; `fuel` bounds the recursion. -/
def chunks64 (fuel : Nat) (bs : List Nat) : List (List Nat) :=
  match fuel with
  | 0 => []
  | fuel + 1 =>
    match bs with
    | [] => []
    | _ => bs.take 64 :: chunks64 fuel (bs.drop 64)

/-- SHA-256 padding: append `0x80`, zeros, and the 64-bit big-endian bit length. -/
def sha256Pad (msg : List Nat) : List Nat :=
  let len := msg.length
  let bitLen := len * 8
  let zeros := (64 - (len + 9) % 64) % 64
  msg ++ [128] ++ List.replicate zeros 0 ++
    [bitLen / 72057594037927936 % 256, bitLen / 281474976710656 % 256,
     bitLen / 1099511627776 % 256, bitLen / 4294967296 % 256,
     bitLen / 16777216 % 256, bitLen / 65536 % 256, bitLen / 256 % 256, bitLen % 256]

/-- Big-endian bytes of a 32-bit word. -/
def word4 (x : Nat) : List Nat := [x / 16777216 % 256, x / 65536 % 256, x / 256 % 256, x % 256]

/-- SHA-256 digest (32 bytes) of a byte list. -/
def sha256 (msg : List Nat) : List Nat :=
  let padded := sha256Pad msg
  let blocks := (chunks64 (padded.length) padded).map bytesToWords
  let h := blocks.foldl compress sha256Init
  word4 h.h0 ++ word4 h.h1 ++ word4 h.h2 ++ word4 h.h3 ++
  word4 h.h4 ++ word4 h.h5 ++ word4 h.h6 ++ word4 h.h7

/-- HMAC-SHA256 (RFC 2104) over byte lists, block size 64. -/
def hmacSha256 (key msg : List Nat) : List Nat :=
  let key' := if 64 < key.length then sha256 key else key
  let key64 := key' ++ List.replicate (64 - key'.length) 0
  let ipad := key64.map (fun b => b ^^^ 54)
  let opad := key64.map (fun b => b ^^^ 92)
  sha256 (opad ++ sha256 (ipad ++ msg))

/-! ## Hex encoding and Node `Buffer.from(·, 'hex')` decoding -/

/-- Lowercase hex digit for `n < 16` (as produced by Node's `digest('hex')`). -/
def hexDigitChar (n : Nat) : Char :=
  if n < 10 then Char.ofNat (48 + n) else Char.ofNat (87 + n)

/-- Two lowercase hex characters of a byte. -/
def byteToHex (b : Nat) : List Char := [hexDigitChar (b / 16), hexDigitChar (b % 16)]

/-- Lowercase hex string of a byte list (as `digest('hex')` returns). -/
def bytesToHex (bs : List Nat) : String := String.mk ((bs.map byteToHex).flatten)

/-- Value of a hex character, `none` for a non-hex character. -/
def hexVal (c : Char) : Option Nat :=
  let n := c.toNat
  if 48 ≤ n ∧ n ≤ 57 then some (n - 48)
  else if 97 ≤ n ∧ n ≤ 102 then some (n - 87)
  else if 65 ≤ n ∧ n ≤ 70 then some (n - 55)
  else none

/-- Node `Buffer.from(s, 'hex')`: decodes pairs of hex characters and silently
truncates at the first incomplete or invalid pair. -/
def hexDecode : List Char → List Nat
  | c1 :: c2 :: rest =>
    match hexVal c1, hexVal c2 with
    | some hi, some lo => (16 * hi + lo) :: hexDecode rest
    | _, _ => []
  | _ => []

/-! ## UTF-8 bytes of a string (Node `Buffer.from(string)`) -/

/-- UTF-8 encoding of one scalar value. -/
def utf8Char (c : Char) : List Nat :=
  let n := c.toNat
  if n < 128 then [n]
  else if n < 2048 then [192 + n / 64, 128 + n % 64]
  else if n < 65536 then [224 + n / 4096, 128 + n / 64 % 64, 128 + n % 64]
  else [240 + n / 262144, 128 + n / 4096 % 64, 128 + n / 64 % 64, 128 + n % 64]

/-- UTF-8 bytes of a string. -/
def utf8Bytes (s : String) : List Nat := (s.data.map utf8Char).flatten

/-! ## Sanity checks of the crypto layer against published vectors -/

/-- FIPS 180-4 test vector: SHA-256 of "abc". -/
theorem sha256_vector_abc : sha256 [97, 98, 99] =
    [0xba, 0x78, 0x16, 0xbf, 0x8f, 0x01, 0xcf, 0xea, 0x41, 0x41, 0x40, 0xde, 0x5d, 0xae, 0x22, 0x23,
     0xb0, 0x03, 0x61, 0xa3, 0x96, 0x17, 0x7a, 0x9c, 0xb4, 0x10, 0xff, 0x61, 0xf2, 0x00, 0x15, 0xad] := by
  decide

/-- RFC 4231 test case 2: HMAC-SHA256 with key "Jefe". -/
theorem hmacSha256_vector_rfc4231 :
    hmacSha256 (utf8Bytes "Jefe") (utf8Bytes "what do ya want for nothing?") =
    [0x5b, 0xdc, 0xc1, 0x46, 0xbf, 0x60, 0x75, 0x4e, 0x6a, 0x04, 0x24, 0x26, 0x08, 0x95, 0x75, 0xc7,
     0x5a, 0x00, 0x3f, 0x08, 0x9d, 0x27, 0x39, 0x83, 0x9d, 0xec, 0x58, 0xb9, 0x64, 0xec, 0x38, 0x43] := by
  decide

/-! ## JSON values and `JSON.stringify`

Webhook payloads are arbitrary JSON documents. `JSON.stringify` is the
engine's deterministic serializer (object keys in insertion order); both the
signing path and axios's default request transform call this same function. -/

inductive Json where
  | null
  | bool (b : Bool)
  | num (n : Int)
  | str (s : String)
  | arr (elems : List Json)
  | obj (fields : List (String × Json))

/-- JSON string escaping for one character. -/
def escapeJsonChar (c : Char) : List Char :=
  let bs := Char.ofNat 92
  if c.toNat = 34 then [bs, Char.ofNat 34]
  else if c.toNat = 92 then [bs, bs]
  else if c.toNat = 8 then [bs, 'b']
  else if c.toNat = 9 then [bs, 't']
  else if c.toNat = 10 then [bs, 'n']
  else if c.toNat = 12 then [bs, 'f']
  else if c.toNat = 13 then [bs, 'r']
  else if c.toNat < 32 then
    [bs, 'u', '0', '0', hexDigitChar (c.toNat / 16), hexDigitChar (c.toNat % 16)]
  else [c]

/-- A JSON string literal, quoted and escaped. -/
def quoteJsonString (s : String) : List Char :=
  Char.ofNat 34 :: (s.data.map escapeJsonChar).flatten ++ [Char.ofNat 34]

/-- Decimal rendering of an integer. -/
def intChars (n : Int) : List Char :=
  if n < 0 then '-' :: Nat.toDigits 10 n.natAbs else Nat.toDigits 10 n.toNat

mutual

/-- Characters of the `JSON.stringify` serialization of a value. -/
def jsonChars : Json → List Char
  | .null => "null".data
  | .bool true => "true".data
  | .bool false => "false".data
  | .num n => intChars n
  | .str s => quoteJsonString s
  | .arr xs => Char.ofNat 91 :: (jsonListChars xs ++ [Char.ofNat 93])
  | .obj fs => Char.ofNat 123 :: (jsonFieldsChars fs ++ [Char.ofNat 125])

/-- Comma-separated serializations of array elements. -/
def jsonListChars : List Json → List Char
  | [] => []
  | [x] => jsonChars x
  | x :: y :: xs => jsonChars x ++ Char.ofNat 44 :: jsonListChars (y :: xs)

/-- Comma-separated `"key":value` serializations of object fields. -/
def jsonFieldsChars : List (String × Json) → List Char
  | [] => []
  | [(k, v)] => quoteJsonString k ++ Char.ofNat 58 :: jsonChars v
  | (k, v) :: f :: fs =>
    quoteJsonString k ++ Char.ofNat 58 :: jsonChars v ++ Char.ofNat 44 :: jsonFieldsChars (f :: fs)

end

/-- Top-level `JSON.stringify`. -/
def jsonStringify (j : Json) : String := String.mk (jsonChars j)

/-! ## WebhookService state and the Signer (`WebhookService.js` lines 5–27) -/

/-- The service's configuration, set in the constructor from environment
variables; with the environment unset the defaults are
`'default-secret'`, `3`, and `1000`. -/
structure WebhookService where
  secret : String
  maxRetries : Nat
  baseDelay : Nat

/-- The module-level singleton `new WebhookService()` with no environment
overrides. -/
def webhookService : WebhookService :=
  { secret := "default-secret", maxRetries := 3, baseDelay := 1000 }

/-- Hex HMAC-SHA256 of the payload string under `this.secret`
(`generateSignature(payload)`). -/
def generateSignature (svc : WebhookService) (payload : String) : String :=
  bytesToHex (hmacSha256 (utf8Bytes svc.secret) (utf8Bytes payload))

/-- Result of a JavaScript call that either returns or throws. -/
inductive JsResult (α : Type) where
  | ok (value : α)
  | thrown (message : String)
deriving DecidableEq

/-- Node `crypto.timingSafeEqual`: throws a `RangeError` when the two
buffers have different lengths, otherwise compares them. -/
def timingSafeEqual (a b : List Nat) : JsResult Bool :=
  if a.length = b.length then .ok (a == b)
  else .thrown "RangeError: Input buffers must have the same byte length"

/-- Signature verification (`verifySignature(payload, signature)`): recomputes
the expected signature and calls `timingSafeEqual` on the hex-decoded buffers. -/
def verifySignature (svc : WebhookService) (payload signature : String) : JsResult Bool :=
  timingSafeEqual (hexDecode signature.data)
    (hexDecode (generateSignature svc payload).data)

/-! ## Event rows and the delivery/retry logic (`WebhookService.js` lines 29–130) -/

/-- Delivery status of a webhook event row. -/
inductive Status where
  | pending
  | delivered
  | failed
deriving DecidableEq

/-- A `webhookEvent` row (diagnostic `response`/`error` JSON blobs omitted:
no claim is about their contents). -/
structure Event where
  eventType : String
  payload : Json
  webhookUrl : String
  status : Status
  attempts : Nat
  nextRetry : Option Nat
  lastAttempt : Option Nat
  deliveredAt : Option Nat

/-- The outbound `axios.post` request assembled by `sendWebhook`. The body
on the wire is axios's default request transform of the payload object,
i.e. `JSON.stringify` again. -/
structure OutboundRequest where
  url : String
  body : List Nat
  contentType : String
  signatureHeader : String
  eventHeader : String

/-- The request `sendWebhook` sends: it signs `JSON.stringify(payload)` and
posts the payload object, which axios serializes with the same
`JSON.stringify`. -/
def sendWebhookRequest (svc : WebhookService) (ev : Event) : OutboundRequest :=
  let payload := jsonStringify ev.payload
  { url := ev.webhookUrl
    body := utf8Bytes (jsonStringify ev.payload)
    contentType := "application/json"
    signatureHeader := generateSignature svc payload
    eventHeader := ev.eventType }

/-- Database effect of `sendWebhook`: `outcome` is whether the HTTP POST
resolved (2xx); on success the row is written `delivered`, on any failure
it is written `failed`, in both cases with `attempts` incremented from the
in-memory object. Returns the written row and the boolean result. -/
def sendWebhook (ev : Event) (now : Nat) (outcome : Bool) : Event × Bool :=
  if outcome then
    ({ ev with status := .delivered, attempts := ev.attempts + 1,
               lastAttempt := some now, deliveredAt := some now }, true)
  else
    ({ ev with status := .failed, attempts := ev.attempts + 1,
               lastAttempt := some now }, false)

/-- The exponential backoff delay computed by `processWebhook`:
`this.baseDelay * Math.pow(2, webhookEvent.attempts)`, where
`webhookEvent.attempts` is the in-memory count from before the current
attempt was recorded. -/
def retryDelay (svc : WebhookService) (ev : Event) : Nat :=
  svc.baseDelay * 2 ^ ev.attempts

/-- One processing pass (`processWebhook`): one delivery attempt; if it
failed and the in-memory pre-attempt count is below `maxRetries`, the row
is rewritten to `pending` with `nextRetry` set by exponential backoff, and
a `setTimeout` retry is scheduled after the same delay, whose callback
re-invokes `processWebhook` with the very object this call received (the
code never refreshes `webhookEvent` from the database, so that object is
stale on the retry). The result is the final written row (`.1`), the
returned success flag, and the scheduled retry as its (delay,
callback-argument) pair when one was set. -/
def processWebhook (svc : WebhookService) (ev : Event) (now : Nat) (outcome : Bool) :
    Event × Bool × Option (Nat × Event) :=
  let (ev1, success) := sendWebhook ev now outcome
  if !success && ev.attempts < svc.maxRetries then
    ({ ev1 with status := .pending, nextRetry := some (now + retryDelay svc ev) },
     success, some (retryDelay svc ev, ev))
  else
    (ev1, success, none)

/-- The sequence of row states written by one `processWebhook` call: the
`prisma.webhookEvent.update` inside `sendWebhook`, then (when a retry is
scheduled) the second update that rewrites the status to `pending`. -/
def processWebhookWrites (svc : WebhookService) (ev : Event) (now : Nat) (outcome : Bool) :
    List Event :=
  let (ev1, success) := sendWebhook ev now outcome
  if !success && ev.attempts < svc.maxRetries then
    [ev1, { ev1 with status := .pending, nextRetry := some (now + retryDelay svc ev) }]
  else
    [ev1]

/-- The `findMany` where-clause of `processPendingWebhooks`:
`status = 'pending'` and (`nextRetry <= now` or `nextRetry` null). -/
def isDue (now : Nat) (ev : Event) : Bool :=
  match ev.status, ev.nextRetry with
  | .pending, none => true
  | .pending, some t => decide (t ≤ now)
  | _, _ => false

/-- The due-event query of `processPendingWebhooks`: due events,
capped at 10 (`take: 10`). -/
def findDueWebhooks (now : Nat) (events : List Event) : List Event :=
  (events.filter (isDue now)).take 10

/-- One polling cycle's effect on a single event: processed only if the
query selects it at time `now`. -/
def pollCycle (svc : WebhookService) (now : Nat) (outcome : Bool) (ev : Event) : Event :=
  if isDue now ev then (processWebhook svc ev now outcome).1 else ev

/-- The timer-driven retry chain the code actually runs after a failure:
each scheduled `setTimeout` callback re-invokes `processWebhook`, after
the computed delay, with the object it captured. Records the final written
row of each call in order; the chain ends when a call schedules no retry,
and the outcome list bounds how many delivery outcomes are observed. -/
def timerTrace (svc : WebhookService) (obj : Event) : List Bool → Nat → List Event
  | [], _ => []
  | outcome :: rest, now =>
    match processWebhook svc obj now outcome with
    | (written, _, some (delay, obj1)) => written :: timerTrace svc obj1 rest (now + delay)
    | (written, _, none) => [written]

/-- The successive `setTimeout` delays scheduled along a timer-retry
chain. -/
def timerDelays (svc : WebhookService) (obj : Event) : List Bool → Nat → List Nat
  | [], _ => []
  | outcome :: rest, now =>
    match processWebhook svc obj now outcome with
    | (_, _, some (delay, obj1)) => delay :: timerDelays svc obj1 rest (now + delay)
    | (_, _, none) => []

/-- Creation (`createWebhookEvent`): inserts a fresh row with `status = 'pending'`,
`attempts = 0` (schema default) and `nextRetry = new Date()`. -/
def createWebhookEvent (eventType : String) (payload : Json) (webhookUrl : String)
    (now : Nat) : Event :=
  { eventType := eventType, payload := payload, webhookUrl := webhookUrl,
    status := .pending, attempts := 0, nextRetry := some now,
    lastAttempt := none, deliveredAt := none }

/-! ## Routes (`routes/webhooks.js`) -/

/-- A `webhook_subscriptions` row. -/
structure Subscription where
  userId : String
  webhookUrl : String
  events : List String
  secretKey : Option String
  isActive : Bool

/-- The insert performed by `POST /api/webhooks/subscribe`:
`secret_key: secretKey || null` (a missing or empty secret becomes null),
`is_active: true`. -/
def subscribeRoute (userId webhookUrl : String) (events : List String)
    (secretKey : Option String) : Subscription :=
  { userId := userId, webhookUrl := webhookUrl, events := events,
    secretKey := match secretKey with
      | some s => if s = "" then none else some s
      | none => none,
    isActive := true }

/-- Modelled from the spec: the spec's claimed secret-selection contract,
"subscription-specific secret if present, else a process-wide default".
This definition follows the spec's words and is compared against the
code's actual signing behaviour. -/
def specSecretFor (svc : WebhookService) (sub : Subscription) : String :=
  sub.secretKey.getD svc.secret

/-- Response of the receive route (only the fields claims are about). -/
structure HttpResponse where
  statusCode : Nat
  success : Bool
  echoedPayload : Option Json

/-- The receive route (`POST /api/webhooks/receive`): skips verification when the
`x-webhook-signature` header is absent; otherwise verifies
`JSON.stringify(req.body)` against it. A thrown error is caught by the
route's try/catch and answered with 500. -/
def receiveRoute (svc : WebhookService) (body : Json) (signatureHeader : Option String) :
    HttpResponse :=
  match signatureHeader with
  | none => { statusCode := 200, success := true, echoedPayload := some body }
  | some signature =>
    match verifySignature svc (jsonStringify body) signature with
    | .thrown _ => { statusCode := 500, success := false, echoedPayload := none }
    | .ok false => { statusCode := 401, success := false, echoedPayload := none }
    | .ok true => { statusCode := 200, success := true, echoedPayload := some body }

/-! ## Supporting lemmas about the crypto layer -/

theorem sha256_length (msg : List Nat) : (sha256 msg).length = 32 := by
  simp [sha256, word4]

theorem sha256_bytes_lt (msg : List Nat) : ∀ b ∈ sha256 msg, b < 256 := by
  intro b hb
  simp [sha256, word4] at hb
  omega

theorem hmacSha256_length (key msg : List Nat) : (hmacSha256 key msg).length = 32 := by
  unfold hmacSha256
  exact sha256_length _

theorem hmacSha256_bytes_lt (key msg : List Nat) : ∀ b ∈ hmacSha256 key msg, b < 256 := by
  unfold hmacSha256
  exact sha256_bytes_lt _

theorem hexVal_hexDigitChar : ∀ n, n < 16 → hexVal (hexDigitChar n) = some n := by
  decide

/-- Decoding inverts encoding on genuine byte lists. -/
theorem hexDecode_encode (bs : List Nat) (h : ∀ b ∈ bs, b < 256) :
    hexDecode ((bs.map byteToHex).flatten) = bs := by
  induction bs with
  | nil => rfl
  | cons b rest ih =>
    have hb : b < 256 := h b (by simp)
    have hhi : b / 16 < 16 := by omega
    have hlo : b % 16 < 16 := by omega
    have : ((b :: rest).map byteToHex).flatten =
        hexDigitChar (b / 16) :: hexDigitChar (b % 16) :: (rest.map byteToHex).flatten := by
      simp [byteToHex]
    have hrest := ih (fun x hx => h x (by simp [hx]))
    rw [this, hexDecode, hexVal_hexDigitChar _ hhi, hexVal_hexDigitChar _ hlo, hrest]
    show (16 * (b / 16) + b % 16) :: rest = b :: rest
    congr 1
    omega

/-- The hex-decoded form of a generated signature is the raw HMAC digest. -/
theorem hexDecode_generateSignature (svc : WebhookService) (payload : String) :
    hexDecode (generateSignature svc payload).data =
      hmacSha256 (utf8Bytes svc.secret) (utf8Bytes payload) := by
  unfold generateSignature bytesToHex
  exact hexDecode_encode _ (hmacSha256_bytes_lt _ _)

theorem hexDecode_generateSignature_length (svc : WebhookService) (payload : String) :
    (hexDecode (generateSignature svc payload).data).length = 32 := by
  rw [hexDecode_generateSignature]
  exact hmacSha256_length _ _

/-! ## Base-256 value of a byte list (for counting digests) -/

def bytesToNat : List Nat → Nat
  | [] => 0
  | b :: bs => b + 256 * bytesToNat bs

theorem bytesToNat_lt (bs : List Nat) (h : ∀ b ∈ bs, b < 256) :
    bytesToNat bs < 256 ^ bs.length := by
  induction bs with
  | nil => simp [bytesToNat]
  | cons b rest ih =>
    have hb : b < 256 := h b (by simp)
    have hr : bytesToNat rest + 1 ≤ 256 ^ rest.length :=
      ih (fun x hx => h x (by simp [hx]))
    calc b + 256 * bytesToNat rest < 256 * (bytesToNat rest + 1) := by omega
    _ ≤ 256 * 256 ^ rest.length := Nat.mul_le_mul_left _ hr
    _ = 256 ^ (rest.length + 1) := by ring

theorem bytesToNat_inj (as bs : List Nat) (hlen : as.length = bs.length)
    (ha : ∀ b ∈ as, b < 256) (hb : ∀ b ∈ bs, b < 256)
    (h : bytesToNat as = bytesToNat bs) : as = bs := by
  induction as generalizing bs with
  | nil =>
    cases bs with
    | nil => rfl
    | cons b bs => simp at hlen
  | cons a rest ih =>
    cases bs with
    | nil => simp at hlen
    | cons b bs =>
      have ha1 : a < 256 := ha a (by simp)
      have hb1 : b < 256 := hb b (by simp)
      simp only [bytesToNat] at h
      have hab : a = b := by omega
      have htail : bytesToNat rest = bytesToNat bs := by omega
      have hlen' : rest.length = bs.length := by simpa using hlen
      have := ih bs hlen' (fun x hx => ha x (by simp [hx]))
        (fun x hx => hb x (by simp [hx])) htail
      rw [hab, this]

/-! ## Lemmas about the per-event delivery machinery -/

/-- Only pending events are ever selected by the due-query. -/
theorem isDue_eq_false_of_not_pending (now : Nat) (ev : Event)
    (h : ev.status ≠ Status.pending) : isDue now ev = false := by
  unfold isDue
  cases hst : ev.status with
  | pending => exact absurd hst h
  | delivered => cases ev.nextRetry <;> rfl
  | failed => cases ev.nextRetry <;> rfl

/-- A non-pending event is untouched by a polling cycle. -/
theorem pollCycle_not_pending (svc : WebhookService) (now : Nat) (outcome : Bool)
    (ev : Event) (h : ev.status ≠ Status.pending) :
    pollCycle svc now outcome ev = ev := by
  unfold pollCycle
  rw [isDue_eq_false_of_not_pending now ev h]
  rfl

/-- Chain step on a failing call below the ceiling: the call writes the
row back to `pending` with the captured object's count incremented once,
and schedules the next call, on the same stale object, after the delay
computed from that unchanged count. -/
theorem timerTrace_fail_step (svc : WebhookService) (obj : Event) (now : Nat)
    (rest : List Bool) (hlt : obj.attempts < svc.maxRetries) :
    timerTrace svc obj (false :: rest) now =
      { obj with
          status := Status.pending
          attempts := obj.attempts + 1
          lastAttempt := some now
          nextRetry := some (now + retryDelay svc obj) }
        :: timerTrace svc obj rest (now + retryDelay svc obj) := by
  simp [timerTrace, processWebhook, sendWebhook, hlt]

/-- The delay scheduled by a failing call below the ceiling. -/
theorem timerDelays_fail_step (svc : WebhookService) (obj : Event) (now : Nat)
    (rest : List Bool) (hlt : obj.attempts < svc.maxRetries) :
    timerDelays svc obj (false :: rest) now =
      retryDelay svc obj :: timerDelays svc obj rest (now + retryDelay svc obj) := by
  simp [timerDelays, processWebhook, sendWebhook, hlt]

/-- Along an all-failing timer chain the captured object never changes, so
every call writes `pending` with the same attempts value, and a further
attempt is scheduled after every one: the chain consumes every outcome. -/
theorem timerTrace_all_fail (svc : WebhookService) (obj : Event) (n : Nat)
    (hlt : obj.attempts < svc.maxRetries) : ∀ now,
    (timerTrace svc obj (List.replicate n false) now).map Event.status
      = List.replicate n Status.pending ∧
    (timerTrace svc obj (List.replicate n false) now).map Event.attempts
      = List.replicate n (obj.attempts + 1) := by
  induction n with
  | zero =>
    intro now
    exact ⟨rfl, rfl⟩
  | succ n ih =>
    intro now
    rw [List.replicate_succ, timerTrace_fail_step svc obj now _ hlt]
    have h := ih (now + retryDelay svc obj)
    refine ⟨?_, ?_⟩
    · rw [List.map_cons, h.1, List.replicate_succ]
    · rw [List.map_cons, h.2, List.replicate_succ]

/-! ## Claim C7 -/

/-- C7 counterexample: destination fails once, then succeeds. The second
attempt is the `setTimeout` callback re-invoking `processWebhook` with the
stale captured object whose `attempts` is still 0, so the success write
records `attempts = 1`, not the claimed 2. -/
theorem c7_counterexample :
    ((timerTrace webhookService (createWebhookEvent "test" Json.null "u" 0)
        [false, true] 0).map (fun row => (row.status, row.attempts))
      = [(Status.pending, 1), (Status.delivered, 1)]) ∧
    ((timerTrace webhookService (createWebhookEvent "test" Json.null "u" 0)
        [false, true] 0).getLast?).map Event.attempts ≠ some 2 :=
  ⟨rfl, by decide⟩

/-- C7 (amended): with a failure then a success the event does end
`delivered`, but with `attempts = 1`: the timer retry runs on the stale
object (count still 0), so the success write records 0 + 1 although two
delivery attempts were made; after the success no further call occurs,
whatever outcomes would follow. -/
theorem c7_fail_then_success_stale (eventType : String) (payload : Json) (url : String)
    (n : Nat) :
    (timerTrace webhookService (createWebhookEvent eventType payload url 0)
        (false :: true :: List.replicate n false) 0).map
        (fun row => (row.status, row.attempts, row.lastAttempt, row.deliveredAt))
      = [(Status.pending, 1, some 0, none),
         (Status.delivered, 1, some 1000, some 1000)] :=
  rfl

/-! ## Claim C1 -/

/-- C1: the configured retry ceiling is never enforced on the schedule the
code actually runs. Every `setTimeout` retry re-invokes `processWebhook`
with the stale captured object, whose `attempts` stays 0, so for every
chain length `n` an always-failing event is written back to `pending` with
`attempts = 1` after each of the `n` attempts and a further attempt is
scheduled after every one of them: the event never settles at `failed`
(with `attempts = 3` or any other value) and delivery attempts never
stop. -/
theorem c1_stale_timer_retries_forever (n : Nat) (eventType : String) (payload : Json)
    (url : String) :
    (timerTrace webhookService (createWebhookEvent eventType payload url 0)
        (List.replicate n false) 0).map Event.status
      = List.replicate n Status.pending ∧
    (timerTrace webhookService (createWebhookEvent eventType payload url 0)
        (List.replicate n false) 0).map Event.attempts
      = List.replicate n 1 :=
  timerTrace_all_fail webhookService (createWebhookEvent eventType payload url 0) n
    (by show (0 : Nat) < 3; decide) 0

/-! ## Claim C2 -/

/-- C2 counterexample: the very first failed delivery attempt (attempts 0,
below the ceiling) writes the row with status `failed` and then rewrites it
to `pending`: a row whose status was written `failed` is subsequently
written with another status, and the retried-failure transition passes
through `failed` rather than going `pending` to `pending` directly. -/
theorem c2_counterexample :
    (processWebhookWrites webhookService (createWebhookEvent "test" Json.null "u" 0) 0 false).map
        Event.status = [Status.failed, Status.pending] := rfl

/-- C2 (amended): at polling-cycle granularity `delivered` and `failed` are
terminal (a non-pending event is never rewritten), a success writes
`delivered`, and a failure below the ceiling ends the cycle with the event
`pending` again — but its write sequence is `failed` then `pending`, so the
pending-to-pending transition passes through a written `failed` state;
a failure at or above the ceiling leaves the row `failed`. -/
theorem c2_transitions (svc : WebhookService) (ev : Event) (now : Nat) (outcome : Bool) :
    (ev.status = Status.delivered → pollCycle svc now outcome ev = ev) ∧
    (ev.status = Status.failed → pollCycle svc now outcome ev = ev) ∧
    (outcome = true → (sendWebhook ev now outcome).1.status = Status.delivered) ∧
    (outcome = false → ev.attempts < svc.maxRetries →
      (processWebhook svc ev now outcome).1.status = Status.pending ∧
      (processWebhookWrites svc ev now outcome).map Event.status
        = [Status.failed, Status.pending]) ∧
    (outcome = false → ¬ ev.attempts < svc.maxRetries →
      (processWebhook svc ev now outcome).1.status = Status.failed ∧
      (processWebhookWrites svc ev now outcome).map Event.status = [Status.failed]) := by
  refine ⟨?_, ?_, ?_, ?_, ?_⟩
  · intro h
    exact pollCycle_not_pending _ _ _ _ (by rw [h]; intro hc; cases hc)
  · intro h
    exact pollCycle_not_pending _ _ _ _ (by rw [h]; intro hc; cases hc)
  · intro h
    rw [h]
    rfl
  · intro h hlt
    subst h
    unfold processWebhook processWebhookWrites sendWebhook
    simp [hlt]
  · intro h hge
    subst h
    unfold processWebhook processWebhookWrites sendWebhook
    simp [hge]

/-- C2 witness: the amended statement applied at concrete events of each
status, with the hypotheses discharged by evaluation. -/
theorem c2_transitions_witness :
    (pollCycle webhookService 9 true
      { eventType := "t", payload := Json.null, webhookUrl := "u",
        status := Status.delivered, attempts := 1, nextRetry := none,
        lastAttempt := some 0, deliveredAt := some 0 }
      = { eventType := "t", payload := Json.null, webhookUrl := "u",
          status := Status.delivered, attempts := 1, nextRetry := none,
          lastAttempt := some 0, deliveredAt := some 0 }) ∧
    (sendWebhook (createWebhookEvent "t" Json.null "u" 0) 0 true).1.status
      = Status.delivered ∧
    (processWebhook webhookService (createWebhookEvent "t" Json.null "u" 0) 0 false).1.status
      = Status.pending ∧
    (processWebhookWrites webhookService
        { eventType := "t", payload := Json.null, webhookUrl := "u",
          status := Status.pending, attempts := 3, nextRetry := some 0,
          lastAttempt := none, deliveredAt := none } 0 false).map Event.status
      = [Status.failed] :=
  ⟨(c2_transitions webhookService _ 9 true).1 rfl,
   (c2_transitions webhookService _ 0 true).2.2.1 rfl,
   ((c2_transitions webhookService _ 0 false).2.2.2.1 rfl (by decide)).1,
   ((c2_transitions webhookService
      { eventType := "t", payload := Json.null, webhookUrl := "u",
        status := Status.pending, attempts := 3, nextRetry := some 0,
        lastAttempt := none, deliveredAt := none } 0 false).2.2.2.2 rfl (by decide)).2⟩

/-! ## Claim C5 -/

/-- C5: the `X-Webhook-Signature` header carries the HMAC of exactly the
bytes sent as the request body. The service signs `JSON.stringify(payload)`
and posts the payload object, which axios's default request transform
serializes with the same deterministic `JSON.stringify`, so the signed
bytes and the wire bytes coincide. -/
theorem c5_signature_matches_body (svc : WebhookService) (ev : Event) :
    (sendWebhookRequest svc ev).signatureHeader =
      bytesToHex (hmacSha256 (utf8Bytes svc.secret) ((sendWebhookRequest svc ev).body)) ∧
    (sendWebhookRequest svc ev).body = utf8Bytes (jsonStringify ev.payload) :=
  ⟨rfl, rfl⟩

/-! ## Claim C6 -/

/-- C6 counterexample: the first three scheduled retry delays of an
always-failing fresh event. The stale captured object keeps `attempts = 0`,
so every delay is `1000 * 2 ^ 0 = 1000` ms: the second scheduled delay
equals the first instead of exceeding it, and from the second retry on the
delay also stops matching `baseDelay * 2 ^ (count before the current
attempt)`, since the row's pre-attempt count is then 1 while the stale
exponent stays 0. -/
theorem c6_counterexample :
    timerDelays webhookService (createWebhookEvent "t" Json.null "u" 0)
      [false, false, false] 0 = [1000, 1000, 1000] :=
  rfl

/-- C6 (amended): each scheduled retry's delay is
`baseDelay * 2 ^ webhookEvent.attempts`, computed from the in-memory
object the call received — on the first call that count is the
pre-attempt count, but the scheduled retry carries the same stale object,
so along a failing chain every scheduled delay equals the first: the
delays are constant, not strictly increasing. -/
theorem c6_backoff_formula_constant (svc : WebhookService) (obj : Event) (now : Nat)
    (hlt : obj.attempts < svc.maxRetries) :
    (processWebhook svc obj now false).2.2
      = some (svc.baseDelay * 2 ^ obj.attempts, obj) ∧
    ∀ n now', timerDelays svc obj (List.replicate n false) now'
      = List.replicate n (svc.baseDelay * 2 ^ obj.attempts) := by
  constructor
  · simp [processWebhook, sendWebhook, retryDelay, hlt]
  · intro n
    induction n with
    | zero =>
      intro now'
      rfl
    | succ n ih =>
      intro now'
      rw [List.replicate_succ, timerDelays_fail_step svc obj now' _ hlt,
        ih (now' + retryDelay svc obj), List.replicate_succ]
      rfl

/-- C6 witness: the amended statement at a fresh event with the default
configuration and a three-failure chain. -/
theorem c6_backoff_formula_constant_witness :
    (processWebhook webhookService (createWebhookEvent "t" Json.null "u" 0) 0 false).2.2
      = some (webhookService.baseDelay * 2 ^ (createWebhookEvent "t" Json.null "u" 0).attempts,
          createWebhookEvent "t" Json.null "u" 0) ∧
    timerDelays webhookService (createWebhookEvent "t" Json.null "u" 0)
        (List.replicate 3 false) 0
      = List.replicate 3
          (webhookService.baseDelay * 2 ^ (createWebhookEvent "t" Json.null "u" 0).attempts) :=
  ⟨(c6_backoff_formula_constant webhookService (createWebhookEvent "t" Json.null "u" 0) 0
      (by decide)).1,
   (c6_backoff_formula_constant webhookService (createWebhookEvent "t" Json.null "u" 0) 0
      (by decide)).2 3 0⟩

/-! ## Claim C8 -/

/-- C8: the due-query returns only pending events whose `nextRetry` is null
or has passed, and at most 10 of them. -/
theorem c8_findDue_sound (now : Nat) (events : List Event) (ev : Event)
    (hmem : ev ∈ findDueWebhooks now events) :
    (ev.status = Status.pending ∧
      (ev.nextRetry = none ∨ ∃ t, ev.nextRetry = some t ∧ t ≤ now)) ∧
    (findDueWebhooks now events).length ≤ 10 := by
  constructor
  · have h1 : ev ∈ events.filter (isDue now) := List.mem_of_mem_take hmem
    have h2 : isDue now ev = true := (List.mem_filter.mp h1).2
    unfold isDue at h2
    cases hst : ev.status with
    | pending =>
      refine ⟨rfl, ?_⟩
      cases hnr : ev.nextRetry with
      | none => exact Or.inl rfl
      | some t =>
        rw [hst, hnr] at h2
        simp at h2
        exact Or.inr ⟨t, rfl, h2⟩
    | delivered =>
      rw [hst] at h2
      cases hnr : ev.nextRetry <;> rw [hnr] at h2 <;> simp at h2
    | failed =>
      rw [hst] at h2
      cases hnr : ev.nextRetry <;> rw [hnr] at h2 <;> simp at h2
  · unfold findDueWebhooks
    exact List.length_take_le _ _

/-- C8 witness: the query statement at a one-element store whose event is
due at the query time. -/
theorem c8_findDue_sound_witness :
    ((createWebhookEvent "t" Json.null "u" 0).status = Status.pending ∧
      ((createWebhookEvent "t" Json.null "u" 0).nextRetry = none ∨
        ∃ t, (createWebhookEvent "t" Json.null "u" 0).nextRetry = some t ∧ t ≤ 5)) ∧
    (findDueWebhooks 5 [createWebhookEvent "t" Json.null "u" 0]).length ≤ 10 :=
  c8_findDue_sound 5 [createWebhookEvent "t" Json.null "u" 0]
    (createWebhookEvent "t" Json.null "u" 0)
    (show createWebhookEvent "t" Json.null "u" 0 ∈ [createWebhookEvent "t" Json.null "u" 0]
      from List.mem_singleton_self _)

/-! ## Claim C10 -/

/-- C10: with no `x-webhook-signature` header the receive route performs no
verification at all: it answers 200 echoing the payload, and the response
is the same whatever the configured secret is. -/
theorem c10_receive_missing_signature (svc svc' : WebhookService) (body : Json) :
    receiveRoute svc body none =
      { statusCode := 200, success := true, echoedPayload := some body } ∧
    receiveRoute svc body none = receiveRoute svc' body none :=
  ⟨rfl, rfl⟩

/-! ## Claim C4 -/

/-- Pigeonhole: a bounded `Nat`-valued function on strings has a collision. -/
theorem exists_string_collision (f : String → Nat) (bound : Nat) (hf : ∀ s, f s < bound) :
    ∃ s1 s2 : String, s1 ≠ s2 ∧ f s1 = f s2 := by
  obtain ⟨s1, s2, hne, heq⟩ := Finite.exists_ne_map_eq_of_infinite
    (fun s => (⟨f s, hf s⟩ : Fin bound))
  exact ⟨s1, s2, hne, congrArg Fin.val heq⟩

/-- Two distinct secrets whose signatures over the empty payload coincide:
infinitely many secrets are hashed into the finite space of 32-byte
digests. -/
theorem hmac_collision_exists : ∃ s1 s2 : String, s1 ≠ s2 ∧
    generateSignature { secret := s1, maxRetries := 3, baseDelay := 1000 } ""
      = generateSignature { secret := s2, maxRetries := 3, baseDelay := 1000 } "" := by
  have hbound : ∀ s : String,
      bytesToNat (hmacSha256 (utf8Bytes s) (utf8Bytes "")) < 256 ^ 32 := by
    intro s
    have h1 := bytesToNat_lt (hmacSha256 (utf8Bytes s) (utf8Bytes ""))
      (hmacSha256_bytes_lt (utf8Bytes s) (utf8Bytes ""))
    have h2 : (hmacSha256 (utf8Bytes s) (utf8Bytes "")).length = 32 := hmacSha256_length _ _
    rw [h2] at h1
    exact h1
  obtain ⟨s1, s2, hne, hval⟩ := exists_string_collision
    (fun s => bytesToNat (hmacSha256 (utf8Bytes s) (utf8Bytes ""))) (256 ^ 32) hbound
  have hdig : hmacSha256 (utf8Bytes s1) (utf8Bytes "")
      = hmacSha256 (utf8Bytes s2) (utf8Bytes "") :=
    bytesToNat_inj _ _
      (by rw [hmacSha256_length (utf8Bytes s1) (utf8Bytes ""),
              hmacSha256_length (utf8Bytes s2) (utf8Bytes "")])
      (hmacSha256_bytes_lt _ _) (hmacSha256_bytes_lt _ _) hval
  refine ⟨s1, s2, hne, ?_⟩
  unfold generateSignature
  rw [hdig]

/-- C4 counterexample: the sign/verify round-trip does hold, but the
universal cross-secret rejection cannot: two distinct secrets exist whose
signatures over some payload coincide, and verification under one accepts
the signature produced under the other instead of returning false. -/
theorem c4_counterexample :
    ¬ ((∀ svc : WebhookService, ∀ payload : String,
          verifySignature svc payload (generateSignature svc payload) = JsResult.ok true) ∧
       (∀ s1 s2 payload : String, s1 ≠ s2 →
          verifySignature { secret := s1, maxRetries := 3, baseDelay := 1000 } payload
              (generateSignature { secret := s2, maxRetries := 3, baseDelay := 1000 } payload)
            = JsResult.ok false)) := by
  rintro ⟨hrt, hcross⟩
  obtain ⟨s1, s2, hne, hsig⟩ := hmac_collision_exists
  have hfalse := hcross s1 s2 "" hne
  rw [← hsig] at hfalse
  rw [hrt { secret := s1, maxRetries := 3, baseDelay := 1000 } ""] at hfalse
  exact Bool.noConfusion (JsResult.ok.inj hfalse)

/-- C4 (amended): the round-trip always verifies, and verification under
one secret of a signature produced under another returns false exactly in
the (cryptographically expected) case that the two HMAC digests differ —
a condition that holds for practical secrets but cannot hold universally. -/
theorem c4_sign_verify (s1 s2 : WebhookService) (payload : String)
    (hdiff : hmacSha256 (utf8Bytes s1.secret) (utf8Bytes payload) ≠
             hmacSha256 (utf8Bytes s2.secret) (utf8Bytes payload)) :
    verifySignature s1 payload (generateSignature s1 payload) = JsResult.ok true ∧
    verifySignature s1 payload (generateSignature s2 payload) = JsResult.ok false := by
  constructor
  · unfold verifySignature
    simp [timingSafeEqual]
  · unfold verifySignature timingSafeEqual
    rw [hexDecode_generateSignature s2 payload, hexDecode_generateSignature s1 payload]
    rw [if_pos (by rw [hmacSha256_length (utf8Bytes s2.secret) (utf8Bytes payload),
                       hmacSha256_length (utf8Bytes s1.secret) (utf8Bytes payload)])]
    simp only [JsResult.ok.injEq]
    rw [beq_eq_false_iff_ne]
    exact fun h => hdiff h.symm

/-- C4 witness: round-trip and cross-secret rejection at concrete secrets
whose digests over the payload provably differ. -/
theorem c4_sign_verify_witness :
    verifySignature webhookService "x" (generateSignature webhookService "x")
      = JsResult.ok true ∧
    verifySignature webhookService "x"
        (generateSignature { secret := "k", maxRetries := 3, baseDelay := 1000 } "x")
      = JsResult.ok false :=
  c4_sign_verify webhookService { secret := "k", maxRetries := 3, baseDelay := 1000 } "x"
    (by decide)

/-! ## Claim C3 -/

/-- Unfolding of the receive route when a signature header is present. -/
theorem receiveRoute_some (svc : WebhookService) (body : Json) (signature : String) :
    receiveRoute svc body (some signature) =
      match verifySignature svc (jsonStringify body) signature with
      | JsResult.thrown _ => { statusCode := 500, success := false, echoedPayload := none }
      | JsResult.ok false => { statusCode := 401, success := false, echoedPayload := none }
      | JsResult.ok true => { statusCode := 200, success := true, echoedPayload := some body } :=
  rfl

/-- C3 counterexample: a supplied signature decoding to fewer than 32 bytes
("abcd" decodes to 2) makes `crypto.timingSafeEqual` throw instead of
returning false; the route's catch-all then answers 500, not 401. -/
theorem c3_counterexample :
    verifySignature webhookService (jsonStringify (Json.obj [("a", Json.num 1)])) "abcd"
      = JsResult.thrown "RangeError: Input buffers must have the same byte length" ∧
    (receiveRoute webhookService (Json.obj [("a", Json.num 1)]) (some "abcd")).statusCode = 500 ∧
    (receiveRoute webhookService (Json.obj [("a", Json.num 1)]) (some "abcd")).statusCode ≠ 401 := by
  have hthrow : verifySignature webhookService
      (jsonStringify (Json.obj [("a", Json.num 1)])) "abcd"
      = JsResult.thrown "RangeError: Input buffers must have the same byte length" := by
    unfold verifySignature timingSafeEqual
    rw [if_neg]
    rw [hexDecode_generateSignature_length webhookService
      (jsonStringify (Json.obj [("a", Json.num 1)]))]
    decide
  have h500 : (receiveRoute webhookService (Json.obj [("a", Json.num 1)])
      (some "abcd")).statusCode = 500 := by
    rw [receiveRoute_some, hthrow]
  exact ⟨hthrow, h500, by rw [h500]; decide⟩

/-- C3 (amended): for a supplied signature whose hex decoding has the
expected 32-byte length, verification returns a boolean — false unless the
decoded bytes equal the expected digest — and the route answers 401 on a
mismatch; for any other decoded length `timingSafeEqual` throws and the
route answers 500 rather than 401. -/
theorem c3_verification_behaviour (svc : WebhookService) (body : Json) (signature : String) :
    ((hexDecode signature.data).length = 32 →
      verifySignature svc (jsonStringify body) signature =
        JsResult.ok (hexDecode signature.data
          == hmacSha256 (utf8Bytes svc.secret) (utf8Bytes (jsonStringify body))) ∧
      (hexDecode signature.data ≠ hmacSha256 (utf8Bytes svc.secret)
          (utf8Bytes (jsonStringify body)) →
        (receiveRoute svc body (some signature)).statusCode = 401)) ∧
    ((hexDecode signature.data).length ≠ 32 →
      verifySignature svc (jsonStringify body) signature =
        JsResult.thrown "RangeError: Input buffers must have the same byte length" ∧
      (receiveRoute svc body (some signature)).statusCode = 500) := by
  constructor
  · intro hlen
    have hok : verifySignature svc (jsonStringify body) signature =
        JsResult.ok (hexDecode signature.data
          == hmacSha256 (utf8Bytes svc.secret) (utf8Bytes (jsonStringify body))) := by
      unfold verifySignature timingSafeEqual
      rw [hexDecode_generateSignature svc (jsonStringify body)]
      rw [if_pos]
      rw [hlen, hmacSha256_length (utf8Bytes svc.secret) (utf8Bytes (jsonStringify body))]
    refine ⟨hok, ?_⟩
    intro hne
    rw [receiveRoute_some, hok, beq_eq_false_iff_ne.mpr hne]
  · intro hlen
    have hthrown : verifySignature svc (jsonStringify body) signature =
        JsResult.thrown "RangeError: Input buffers must have the same byte length" := by
      unfold verifySignature timingSafeEqual
      rw [if_neg]
      rw [hexDecode_generateSignature_length svc (jsonStringify body)]
      exact hlen
    refine ⟨hthrown, ?_⟩
    rw [receiveRoute_some, hthrown]

/-- C3 witness: a 32-byte wrong signature is answered 401, a short one 500. -/
theorem c3_verification_behaviour_witness :
    (receiveRoute webhookService Json.null
      (some "0000000000000000000000000000000000000000000000000000000000000000")).statusCode
      = 401 ∧
    (receiveRoute webhookService Json.null (some "abcd")).statusCode = 500 :=
  ⟨((c3_verification_behaviour webhookService Json.null
      "0000000000000000000000000000000000000000000000000000000000000000").1
      (by decide)).2 (by decide),
   ((c3_verification_behaviour webhookService Json.null "abcd").2 (by decide)).2⟩

/-! ## Claim C9 -/

/-- C9 counterexample: for a subscription registered with its own secret
"k", the outbound request signature differs from the signature the spec's
selection rule (the subscription secret) would produce. -/
theorem c9_counterexample :
    (sendWebhookRequest webhookService
        (createWebhookEvent "test" (Json.str "x") "u" 0)).signatureHeader
      ≠ bytesToHex (hmacSha256
          (utf8Bytes (specSecretFor webhookService (subscribeRoute "u1" "u" ["test"] (some "k"))))
          ((sendWebhookRequest webhookService
            (createWebhookEvent "test" (Json.str "x") "u" 0)).body)) := by
  decide

/-- C9 (amended): the outbound signature is always computed with the
process-wide default secret; the subscribe route stores the optional
per-subscription secret but the delivery path never reads it, so the
spec's selection rule coincides with the code only when the subscription
has no secret of its own. -/
theorem c9_process_wide_secret (svc : WebhookService) (ev : Event) (sub : Subscription)
    (userId url : String) (events : List String) (key : Option String) :
    (sendWebhookRequest svc ev).signatureHeader =
      bytesToHex (hmacSha256 (utf8Bytes svc.secret) (utf8Bytes (jsonStringify ev.payload))) ∧
    (subscribeRoute userId url events key).secretKey =
      (match key with
        | some s => if s = "" then none else some s
        | none => none) ∧
    (sub.secretKey = none → specSecretFor svc sub = svc.secret) := by
  refine ⟨rfl, rfl, ?_⟩
  intro h
  unfold specSecretFor
  rw [h]
  rfl

/-- C9 witness: the amended statement at a concrete event and a concrete
subscription without its own secret. -/
theorem c9_process_wide_secret_witness :
    (sendWebhookRequest webhookService (createWebhookEvent "t" Json.null "u" 0)).signatureHeader =
      bytesToHex (hmacSha256 (utf8Bytes webhookService.secret)
        (utf8Bytes (jsonStringify (createWebhookEvent "t" Json.null "u" 0).payload))) ∧
    specSecretFor webhookService (subscribeRoute "u1" "w" [] none) = webhookService.secret :=
  ⟨(c9_process_wide_secret webhookService (createWebhookEvent "t" Json.null "u" 0)
      (subscribeRoute "u1" "w" [] none) "u1" "w" [] none).1,
   (c9_process_wide_secret webhookService (createWebhookEvent "t" Json.null "u" 0)
      (subscribeRoute "u1" "w" [] none) "u1" "w" [] none).2.2 rfl⟩
